import Mathlib

/-!
Shallow embedding of `src/Acroform_aditus.py` (PDF image-field overlay tool).

Numeric conventions: the Python configuration fields (`x_pos`, `y_pos`,
`width`, `height`) are `int` and are modelled as `Int`.  Page dimensions are
obtained as `float(page.mediabox.width)` and positions computed from them are
Python floats; every arithmetic operation the program performs on them
(comparison, addition, halving an integer) is exact for the magnitudes the
program handles, so they are modelled as `ℚ`.

Side effects (file I/O, exceptions) are modelled by explicit values: a
document read that may fail is an `Except String (List Page)`, a write that
may fail is a `Bool` flag, and the `try/except` of `process_pdf` becomes a
total function into `Bool × Option (List Page)`.
-/

/-- Mirrors the Pydantic model `ImageFieldConfig` (src lines 47-52):
field name plus integer position offsets and size. -/
structure ImageFieldConfig where
  field_name : String
  x_pos : Int
  y_pos : Int
  width : Int
  height : Int
deriving DecidableEq

/-- The default values declared on `ImageFieldConfig`
(`"firma_empleado"`, -27, 16, 90, 23). -/
def ImageFieldConfig.default : ImageFieldConfig :=
  { field_name := "firma_empleado", x_pos := -27, y_pos := 16, width := 90, height := 23 }

/-- Mirrors the state set up by `PDFImageFieldProcessor.__init__`
(src lines 74-79), which copies the five config fields onto the instance. -/
structure PDFImageFieldProcessor where
  field_name : String
  x_pos : Int
  y_pos : Int
  width : Int
  height : Int
deriving DecidableEq

/-- Mirrors `PDFImageFieldProcessor.__init__(config)` (src lines 74-79). -/
def PDFImageFieldProcessor.init (config : ImageFieldConfig) : PDFImageFieldProcessor :=
  { field_name := config.field_name, x_pos := config.x_pos, y_pos := config.y_pos
    width := config.width, height := config.height }

/-- A processor built from the default configuration. -/
def defaultProcessor : PDFImageFieldProcessor :=
  PDFImageFieldProcessor.init ImageFieldConfig.default

/-- The interactive button field written by `c.acroForm.button(...)`
(src lines 91-103), with every keyword argument of that call recorded.
Colors are recorded by their reportlab names. -/
structure FieldAnnot where
  name : String
  tooltip : String
  x : ℚ
  y : ℚ
  width : Int
  height : Int
  borderStyle : String
  borderWidth : Int
  fillColor : String
  borderColor : String
  forceBorder : Bool
deriving DecidableEq

/-- The indicative caption drawn by `c.setFont`/`c.drawString`
(src lines 106-110). -/
structure Caption where
  font : String
  size : Int
  x : ℚ
  y : ℚ
  text : String
deriving DecidableEq

/-- The single-page overlay document produced by
`create_image_field_overlay`: page size, one button field, one caption. -/
structure Overlay where
  page_width : ℚ
  page_height : ℚ
  field : FieldAnnot
  caption : Caption
deriving DecidableEq

/-- Mirrors `PDFImageFieldProcessor.create_image_field_overlay`
(src lines 81-114).  The position adjustment at lines 87-88 is
`adjusted_x = self.x_pos if self.x_pos >= 0 else page_width + self.x_pos`
and the same for y against `page_height`; the field and caption record the
exact arguments the source passes to reportlab. -/
def PDFImageFieldProcessor.create_image_field_overlay
    (self : PDFImageFieldProcessor) (page_width page_height : ℚ) : Overlay :=
  let adjusted_x : ℚ := if self.x_pos ≥ 0 then (self.x_pos : ℚ) else page_width + self.x_pos
  let adjusted_y : ℚ := if self.y_pos ≥ 0 then (self.y_pos : ℚ) else page_height + self.y_pos
  { page_width := page_width
    page_height := page_height
    field :=
      { name := self.field_name
        tooltip := "Campo de imagen: " ++ self.field_name
        x := adjusted_x
        y := adjusted_y
        width := self.width
        height := self.height
        borderStyle := "inset"
        borderWidth := 1
        fillColor := "white"
        borderColor := "black"
        forceBorder := true }
    caption :=
      { font := "Helvetica"
        size := 8
        x := adjusted_x + 5
        y := adjusted_y + (self.height : ℚ) / 2 - 4
        text := "Imagen" } }

/-- The PDF rectangle of a field annotation in page coordinates:
`(x, y, x + width, y + height)`. -/
def fieldRect (f : FieldAnnot) : ℚ × ℚ × ℚ × ℚ :=
  (f.x, f.y, f.x + (f.width : ℚ), f.y + (f.height : ℚ))

/-- C1: for every configuration and every positive page width and height, the
resolved x of the overlay's field is `x_pos` when `x_pos ≥ 0` and
`page_width + x_pos` when `x_pos < 0`, and the resolved y follows the same
rule for `y_pos` against `page_height` (src lines 87-88). -/
theorem c1_position_resolver (self : PDFImageFieldProcessor) (pw ph : ℚ)
    (hw : 0 < pw) (hh : 0 < ph) :
    ((self.x_pos ≥ 0 →
        (self.create_image_field_overlay pw ph).field.x = (self.x_pos : ℚ)) ∧
      (self.x_pos < 0 →
        (self.create_image_field_overlay pw ph).field.x = pw + (self.x_pos : ℚ))) ∧
    ((self.y_pos ≥ 0 →
        (self.create_image_field_overlay pw ph).field.y = (self.y_pos : ℚ)) ∧
      (self.y_pos < 0 →
        (self.create_image_field_overlay pw ph).field.y = ph + (self.y_pos : ℚ))) := by
  refine ⟨⟨fun hx => ?_, fun hx => ?_⟩, ⟨fun hy => ?_, fun hy => ?_⟩⟩
  · simp [PDFImageFieldProcessor.create_image_field_overlay, if_pos hx]
  · simp [PDFImageFieldProcessor.create_image_field_overlay, if_neg (not_le.mpr hx)]
  · simp [PDFImageFieldProcessor.create_image_field_overlay, if_pos hy]
  · simp [PDFImageFieldProcessor.create_image_field_overlay, if_neg (not_le.mpr hy)]

/-- Content of a PDF page: either an opaque original content item of the
source document, or a merged-in overlay.  `PageObject.merge_page` stacks the
overlay's content on top of the page's existing content. -/
inductive PageContent where
  | original (id : Nat)
  | overlaid (ov : Overlay)
deriving DecidableEq

/-- A PDF page as `process_pdf` sees it (src lines 123-126): a mediabox
width and height in points, plus a content list. -/
structure Page where
  width : ℚ
  height : ℚ
  contents : List PageContent
deriving DecidableEq

/-- Mirrors `page.merge_page(overlay_page)` (src line 132): the overlay's
content is painted on top of the page's existing content.  In PyPDF2 this
call mutates the receiver page object in place; here the mutated value is
returned and the caller threads it explicitly. -/
def Page.merge_page (page : Page) (overlay : Overlay) : Page :=
  { page with contents := page.contents ++ [PageContent.overlaid overlay] }

/-- The page loop of `process_pdf` (src lines 123-134) with the running
`enumerate` index made explicit: page number 0 gets an overlay sized to its
own mediabox merged in, every other page is passed through unchanged, and
each resulting page is appended to the writer in order. -/
def processPagesFrom (self : PDFImageFieldProcessor) : Nat → List Page → List Page
  | _, [] => []
  | page_num, page :: rest =>
      (if page_num = 0 then
        page.merge_page (self.create_image_field_overlay page.width page.height)
      else page) :: processPagesFrom self (page_num + 1) rest

/-- The full page loop of `process_pdf`, starting at page number 0:
the pages handed to the writer. -/
def processPages (self : PDFImageFieldProcessor) (pages : List Page) : List Page :=
  processPagesFrom self 0 pages

/-- The reader's in-memory pages after the loop of `process_pdf` ran.
`page.merge_page(overlay_page)` (src line 132) mutates the reader's page
object in place (PyPDF2 `PageObject.merge_page` modifies `self`), and the
loop iterates directly over `reader.pages`, so after processing the reader
holds exactly the pages the writer holds: page 0 merged, the rest untouched. -/
def readerPagesAfter (self : PDFImageFieldProcessor) (pages : List Page) : List Page :=
  processPagesFrom self 0 pages

/-- The effectful surroundings of one `process_pdf` call: opening and
parsing the input either yields the page list or raises (modelled as
`Except.error`), and the final write either succeeds or raises
(modelled as `writeOk = false`). -/
structure DocEnv where
  readResult : Except String (List Page)
  writeOk : Bool

/-- Mirrors `PDFImageFieldProcessor.process_pdf` (src lines 116-142):
the whole body runs under `try/except`, any exception while reading,
composing or writing is caught and turns into the return value `False`
(src lines 140-142), and on success the writer's pages are written out and
`True` is returned.  The result pairs the returned boolean with the written
output document (`none` when nothing valid was written). -/
def PDFImageFieldProcessor.process_pdf (self : PDFImageFieldProcessor)
    (env : DocEnv) : Bool × Option (List Page) :=
  match env.readResult with
  | Except.error _ => (false, none)
  | Except.ok pages =>
      let outPages := processPages self pages
      if env.writeOk then (true, some outPages) else (false, none)

/-- All form-field annotations present on a page, in paint order. -/
def pageFields (p : Page) : List FieldAnnot :=
  p.contents.filterMap fun c =>
    match c with
    | PageContent.overlaid ov => some ov.field
    | PageContent.original _ => none

/-- All form-field annotations of a document, page by page. -/
def formFields (pages : List Page) : List FieldAnnot :=
  (pages.map pageFields).flatten

/-- A concrete 612x792-point source page with one opaque content item and
no form fields. -/
def samplePage : Page := { width := 612, height := 792, contents := [PageContent.original 0] }

/-- A `DocEnv` for a healthy 1-page 612x792 document whose write succeeds. -/
def sampleEnv : DocEnv := { readResult := Except.ok [samplePage], writeOk := true }

/-- Helper: the page loop preserves the number of pages, from any starting
page number. -/
theorem processPagesFrom_length (self : PDFImageFieldProcessor) :
    ∀ (i : Nat) (pages : List Page), (processPagesFrom self i pages).length = pages.length := by
  intro i pages
  induction pages generalizing i with
  | nil => rfl
  | cons p rest ih => simp [processPagesFrom, ih]

/-- Helper: from any nonzero page number on, the page loop is the identity. -/
theorem processPagesFrom_tail (self : PDFImageFieldProcessor) :
    ∀ (i : Nat) (pages : List Page), processPagesFrom self (i + 1) pages = pages := by
  intro i pages
  induction pages generalizing i with
  | nil => rfl
  | cons p rest ih => simp [processPagesFrom, ih]

/-- C2: with the default configuration, processing a 1-page 612x792-point
document succeeds and the output contains exactly one form field, named
"firma_empleado", whose rectangle is exactly (585, 16, 675, 39) in page
coordinates (x, y, x+width, y+height). -/
theorem c2_default_scenario :
    (defaultProcessor.process_pdf sampleEnv).fst = true ∧
    ((defaultProcessor.process_pdf sampleEnv).snd.map
        (fun out => (formFields out).map fun f => (f.name, fieldRect f))) =
      some [("firma_empleado", (585, 16, 675, 39))] := by
  constructor
  · rfl
  · norm_num [defaultProcessor, PDFImageFieldProcessor.process_pdf, sampleEnv, processPages,
      processPagesFrom, samplePage, formFields, pageFields, fieldRect,
      PDFImageFieldProcessor.init, ImageFieldConfig.default, Page.merge_page,
      PDFImageFieldProcessor.create_image_field_overlay, List.filterMap_cons,
      List.filterMap_nil]

/-- C3: whenever `process_pdf` reads a page list and writes an output
document, the output has the same number of pages as the input. -/
theorem c3_page_count (self : PDFImageFieldProcessor) (env : DocEnv)
    (pages out : List Page)
    (hread : env.readResult = Except.ok pages)
    (hout : (self.process_pdf env).snd = some out) :
    out.length = pages.length := by
  unfold PDFImageFieldProcessor.process_pdf at hout
  rw [hread] at hout
  by_cases hw : env.writeOk
  · simp only [hw, if_true, Option.some.injEq] at hout
    rw [← hout]
    exact processPagesFrom_length self 0 pages
  · simp [hw] at hout

/-- Witness for C3 at a concrete 1-page document. -/
theorem c3_page_count_witness :
    (processPages defaultProcessor [samplePage]).length = [samplePage].length :=
  c3_page_count defaultProcessor sampleEnv [samplePage]
    (processPages defaultProcessor [samplePage]) rfl rfl

/-- C4: for every document with at least one page, the writer's pages are
exactly: page 0 merged with an overlay sized to its own mediabox, followed
by pages 1..N-1 verbatim — so only the first page ever changes or receives
a field annotation. -/
theorem c4_only_first_page (self : PDFImageFieldProcessor) (page0 : Page)
    (rest : List Page) :
    processPages self (page0 :: rest) =
      page0.merge_page (self.create_image_field_overlay page0.width page0.height)
        :: rest := by
  unfold processPages processPagesFrom
  simp [processPagesFrom_tail]

/-- C5: `process_pdf` is a total function into a boolean outcome — the
`try/except` at src lines 118-142 turns every read, compose or write
failure into the return value `False` instead of letting it escape — and
it returns `True` exactly when reading succeeded and the write succeeded. -/
theorem c5_error_boundary (self : PDFImageFieldProcessor) (env : DocEnv) :
    (self.process_pdf env).fst = true ↔
      (∃ pages, env.readResult = Except.ok pages) ∧ env.writeOk = true := by
  unfold PDFImageFieldProcessor.process_pdf
  cases h : env.readResult <;> cases hw : env.writeOk <;> simp [h, hw]

/-- One file of a batch upload: saving the upload to the temporary
directory may itself raise (the inner `try/except` at src lines 265-284),
and then the file is processed through its own `DocEnv`. -/
structure BatchFile where
  saveOk : Bool
  env : DocEnv

/-- The per-file body of the loop in `process_multiple_pdfs`
(src lines 264-284): if saving the upload raises, the file counts as
failed with no output; otherwise the outcome is that of `process_pdf`. -/
def processOneBatchFile (self : PDFImageFieldProcessor) (f : BatchFile) :
    Bool × Option (List Page) :=
  if f.saveOk then self.process_pdf f.env else (false, none)

/-- One iteration of the batch loop acting on the accumulator
(successful count, failed count, outputs so far), mirroring the
`successful += 1` / `failed += 1` counters of src lines 274-284. -/
def batchStep (self : PDFImageFieldProcessor)
    (acc : Nat × Nat × List (Option (List Page))) (f : BatchFile) :
    Nat × Nat × List (Option (List Page)) :=
  let r := processOneBatchFile self f
  if r.fst then (acc.fst + 1, acc.snd.fst, acc.snd.snd ++ [r.snd])
  else (acc.fst, acc.snd.fst + 1, acc.snd.snd ++ [r.snd])

/-- The batch loop of `process_multiple_pdfs` (src lines 258-284):
counters start at 0 and every file is visited in order. -/
def process_multiple_pdfs (self : PDFImageFieldProcessor)
    (files : List BatchFile) : Nat × Nat × List (Option (List Page)) :=
  files.foldl (batchStep self) (0, 0, [])

/-- Helper: the batch loop from any accumulator adds the per-file success
and failure counts and appends each file's individual output. -/
theorem batch_foldl_spec (self : PDFImageFieldProcessor) :
    ∀ (files : List BatchFile) (s f : Nat) (os : List (Option (List Page))),
    files.foldl (batchStep self) (s, f, os) =
      (s + files.countP (fun g => (processOneBatchFile self g).fst),
       f + files.countP (fun g => !(processOneBatchFile self g).fst),
       os ++ files.map (fun g => (processOneBatchFile self g).snd)) := by
  intro files
  induction files with
  | nil => simp
  | cons g gs ih =>
    intro s f os
    by_cases h : (processOneBatchFile self g).fst
    · simp [List.foldl_cons, batchStep, h, ih, List.countP_cons]
      omega
    · simp [List.foldl_cons, batchStep, h, ih, List.countP_cons]
      omega

/-- A batch entry whose upload saves fine and whose 1-page document reads
and writes successfully. -/
def validBatchFile : BatchFile := { saveOk := true, env := sampleEnv }

/-- A batch entry for a corrupted upload: saving works but parsing the PDF
raises, which `process_pdf` catches and reports as `False`. -/
def corruptBatchFile : BatchFile :=
  { saveOk := true, env := { readResult := Except.error "EOF marker not found", writeOk := true } }

/-- The output document produced from `samplePage` alone. -/
def sampleOutput : List Page := processPages defaultProcessor [samplePage]

/-- C6: the batch loop visits every file — a failure on one file only
increments the failed counter and never stops the loop — and returns the
per-file success and failure counts together with each file's own output,
which depends on that file alone; concretely, a batch of 3 valid PDFs and
1 corrupted file yields successful=3, failed=1, and the three valid
outputs are exactly the ones produced from their own inputs. -/
theorem c6_batch_independence (self : PDFImageFieldProcessor) (files : List BatchFile) :
    process_multiple_pdfs self files =
      (files.countP (fun g => (processOneBatchFile self g).fst),
       files.countP (fun g => !(processOneBatchFile self g).fst),
       files.map (fun g => (processOneBatchFile self g).snd)) ∧
    process_multiple_pdfs defaultProcessor
        [validBatchFile, validBatchFile, corruptBatchFile, validBatchFile] =
      (3, 1, [some sampleOutput, some sampleOutput, none, some sampleOutput]) := by
  constructor
  · simpa using batch_foldl_spec self files 0 0 []
  · rfl

/-- C8 counterexample: processing a concrete 1-page document mutates the
opened source document's page 0 in place — after the loop, the reader's
pages no longer equal the pages it held when the document was opened,
because `page.merge_page(overlay_page)` (src line 132) modifies the
reader's page object itself. -/
theorem c8_counterexample :
    readerPagesAfter defaultProcessor [samplePage] ≠ [samplePage] := by
  simp [readerPagesAfter, processPagesFrom, samplePage, Page.merge_page,
    defaultProcessor, PDFImageFieldProcessor.init, ImageFieldConfig.default,
    PDFImageFieldProcessor.create_image_field_overlay]

/-- C8 amended: the mutation is confined to page 0 — after processing, the
opened source document holds its original pages 1..N-1 unchanged, and its
page 0 replaced in place by the merged page; the source file on disk is
never written to (the only write targets `output_path`, src line 136). -/
theorem c8_amended_mutation (self : PDFImageFieldProcessor) (page0 : Page)
    (rest : List Page) :
    readerPagesAfter self (page0 :: rest) =
      page0.merge_page (self.create_image_field_overlay page0.width page0.height)
        :: rest := by
  unfold readerPagesAfter processPagesFrom
  simp [processPagesFrom_tail]

/-- C9: when the offsets overshoot the page — `|x_pos|` larger than the
page width or `|y_pos|` larger than the page height — the overlay is still
built, and its field coordinates are exactly the unclamped piecewise values
of src lines 87-88, which may be negative or beyond the page edge. -/
theorem c9_no_clamping (self : PDFImageFieldProcessor) (pw ph : ℚ)
    (h : pw < (self.x_pos.natAbs : ℚ) ∨ ph < (self.y_pos.natAbs : ℚ)) :
    (self.create_image_field_overlay pw ph).field.x =
      (if self.x_pos ≥ 0 then (self.x_pos : ℚ) else pw + (self.x_pos : ℚ)) ∧
    (self.create_image_field_overlay pw ph).field.y =
      (if self.y_pos ≥ 0 then (self.y_pos : ℚ) else ph + (self.y_pos : ℚ)) := by
  simp [PDFImageFieldProcessor.create_image_field_overlay]

/-- A processor whose x offset (-1000) overshoots a 612-point-wide page. -/
def wideOffsetProcessor : PDFImageFieldProcessor :=
  PDFImageFieldProcessor.init
    { field_name := "firma_empleado", x_pos := -1000, y_pos := 16, width := 90, height := 23 }

/-- Witness for C9: with x_pos = -1000 on a 612x792 page the hypothesis
holds, the resolver yields the unclamped values, and the resulting field x
(612 - 1000 = -388) is indeed negative and accepted silently. -/
theorem c9_no_clamping_witness :
    ((612 : ℚ) < (wideOffsetProcessor.x_pos.natAbs : ℚ) ∨
      (792 : ℚ) < (wideOffsetProcessor.y_pos.natAbs : ℚ)) ∧
    ((wideOffsetProcessor.create_image_field_overlay 612 792).field.x =
      (if wideOffsetProcessor.x_pos ≥ 0 then (wideOffsetProcessor.x_pos : ℚ)
        else 612 + (wideOffsetProcessor.x_pos : ℚ)) ∧
     (wideOffsetProcessor.create_image_field_overlay 612 792).field.y =
      (if wideOffsetProcessor.y_pos ≥ 0 then (wideOffsetProcessor.y_pos : ℚ)
        else 792 + (wideOffsetProcessor.y_pos : ℚ))) ∧
    (wideOffsetProcessor.create_image_field_overlay 612 792).field.x < 0 :=
  ⟨by norm_num [wideOffsetProcessor, PDFImageFieldProcessor.init],
   c9_no_clamping wideOffsetProcessor 612 792
     (by norm_num [wideOffsetProcessor, PDFImageFieldProcessor.init]),
   by norm_num [wideOffsetProcessor, PDFImageFieldProcessor.init,
     PDFImageFieldProcessor.create_image_field_overlay]⟩

/-- C10: the processor performs no validation of the configured size — for
every integer width and height, zero and negative included, the overlay's
field carries exactly the configured width and height, and the (total)
overlay construction raises no error of its own. -/
theorem c10_no_size_validation (config : ImageFieldConfig) (pw ph : ℚ) :
    ((PDFImageFieldProcessor.init config).create_image_field_overlay pw ph).field.width
        = config.width ∧
    ((PDFImageFieldProcessor.init config).create_image_field_overlay pw ph).field.height
        = config.height := by
  simp [PDFImageFieldProcessor.create_image_field_overlay, PDFImageFieldProcessor.init]

/-- Witness for C1 at the default configuration on a 612x792 page:
x_pos = -27 < 0 resolves to 612 - 27 = 585 and y_pos = 16 ≥ 0 resolves
to 16. -/
theorem c1_position_resolver_witness :
    ((defaultProcessor.x_pos ≥ 0 →
        (defaultProcessor.create_image_field_overlay 612 792).field.x =
          (defaultProcessor.x_pos : ℚ)) ∧
      (defaultProcessor.x_pos < 0 →
        (defaultProcessor.create_image_field_overlay 612 792).field.x =
          612 + (defaultProcessor.x_pos : ℚ))) ∧
    ((defaultProcessor.y_pos ≥ 0 →
        (defaultProcessor.create_image_field_overlay 612 792).field.y =
          (defaultProcessor.y_pos : ℚ)) ∧
      (defaultProcessor.y_pos < 0 →
        (defaultProcessor.create_image_field_overlay 612 792).field.y =
          792 + (defaultProcessor.y_pos : ℚ))) :=
  c1_position_resolver defaultProcessor 612 792 (by decide) (by decide)
